import Mathlib

/-!
Verification of the sales-forecasting core of a small inventory/sales
manager (FastAPI + pandas + XGBoost).  The pipeline under study:

* `app/services/forecast_models/data_prep.py` — `create_dataset`
* `app/services/forecast_models/model.py` — `create_model`, `get_model_mae`
* `app/services/forecast_models/prediction.py` — `generate_predictions`
* `app/services/forecast.py` — `forecast`
* `app/routers/forecast.py` — `get_forecast` (per-goods decision logic)

Modelling conventions (shallow embedding):

* A calendar date is a day number `d : ℕ` (days since 1970-01-01, which was
  a Thursday, hence pandas `dayofweek = (d + 3) % 7` with Monday = 0).
* A sales observation is a record `(date, total_quantity)`; the collaborator
  `get_sales_dataset_by_goods` delivers exactly these two fields.
* pandas `shift(k)` is positional, so `lag_k` at positional row `i` is the
  quantity at positional row `i - k`; `dropna` removes exactly the first
  `max(lags)` rows (quantities themselves are always present, as integers).
* The XGBoost regressor is opaque: a trainer is an abstract function from a
  feature matrix and target vector to a real-valued (here `ℚ`-valued)
  predictor on feature rows.  `round(model.predict(...)[0])` becomes
  `round : ℚ → ℤ`; `int(round(mean_absolute_error(...)))` likewise.
* Loops (`for _ in repeat(None, day)`) run `day.toNat` times: `itertools`
  `repeat(None, k)` yields nothing for `k ≤ 0`.
-/

/-- A sales observation: `{date, total_quantity}` as produced by
`get_sales_dataset_by_goods` (date as a day number, quantity an integer). -/
structure Obs where
  date : ℕ
  total_quantity : ℤ
deriving DecidableEq, Repr

/-- pandas `Series.dt.dayofweek` (Monday = 0) on a day number. -/
def dayofweek (d : ℕ) : ℕ := (d + 3) % 7

/-- `df["dayofweek"].isin([5, 6]).astype(int)`. -/
def isWeekend (d : ℕ) : ℕ := if dayofweek d = 5 ∨ dayofweek d = 6 then 1 else 0

/-- A feature row of the engineered table.  `lag_7` is `some _` exactly when
the schema of the table carries the `lag_7` column. -/
structure FeatRow where
  date : ℕ
  dayofweek : ℕ
  is_weekend : ℕ
  lag_1 : ℤ
  lag_2 : ℤ
  lag_3 : ℤ
  lag_7 : Option ℤ
  total_quantity : ℤ
deriving DecidableEq, Repr

/-- Quantity at positional index `i` of the raw series (defined, for the
rows we keep, whenever `i < sales.length`). -/
def qtyAt (sales : List Obs) (i : ℕ) : ℤ :=
  ((sales.get? i).map Obs.total_quantity).getD 0

/-- Date at positional index `i` of the raw series. -/
def dateAt (sales : List Obs) (i : ℕ) : ℕ :=
  ((sales.get? i).map Obs.date).getD 0

/-- `data_prep.py` line 29: the lag set is `[1,2,3,7]` iff the raw series has
at least 15 rows. -/
def useLag7 (n : ℕ) : Bool := 15 ≤ n

/-- The lag list chosen by `create_dataset`. -/
def lags (n : ℕ) : List ℕ := if useLag7 n then [1, 2, 3, 7] else [1, 2, 3]

/-- The largest selected lag; `shift` followed by `dropna` drops exactly the
first `maxLag` positional rows. -/
def maxLag (n : ℕ) : ℕ := (lags n).foldr max 0

/-- The feature row materialised at positional index `i` (only used for
`maxLag ≤ i < n`, where every lag is in range). -/
def mkRow (sales : List Obs) (i : ℕ) : FeatRow :=
  { date := dateAt sales i
    dayofweek := dayofweek (dateAt sales i)
    is_weekend := isWeekend (dateAt sales i)
    lag_1 := qtyAt sales (i - 1)
    lag_2 := qtyAt sales (i - 2)
    lag_3 := qtyAt sales (i - 3)
    lag_7 := if useLag7 sales.length then some (qtyAt sales (i - 7)) else none
    total_quantity := qtyAt sales i }

/-- The usable feature rows after `shift` + `dropna` (rows whose every
selected lag is defined), before the 30-row recency cap. -/
def usableRows (sales : List Obs) : List FeatRow :=
  (List.range sales.length).filterMap fun i =>
    if maxLag sales.length ≤ i then some (mkRow sales i) else none

/-- `create_dataset` (`data_prep.py`): lag features, `dropna`, and the
recency cap `if len(df) >= 30: df = df[-30:]`. -/
def create_dataset (sales : List Obs) : List FeatRow :=
  let rows := usableRows sales
  if 30 ≤ rows.length then rows.drop (rows.length - 30) else rows

/-- The feature vector handed to the regressor: the feature table minus the
`date` and `total_quantity` columns (`forecast.py` line 37, and the `row_df`
of `prediction.py` line 54). -/
structure PredRow where
  dayofweek : ℕ
  is_weekend : ℕ
  lag_1 : ℤ
  lag_2 : ℤ
  lag_3 : ℤ
  lag_7 : Option ℤ
deriving DecidableEq, Repr

/-- Drop the `date` and `total_quantity` columns of a feature row. -/
def FeatRow.features (r : FeatRow) : PredRow :=
  { dayofweek := r.dayofweek
    is_weekend := r.is_weekend
    lag_1 := r.lag_1
    lag_2 := r.lag_2
    lag_3 := r.lag_3
    lag_7 := r.lag_7 }

/-- An abstract training procedure: from a feature matrix and a target
vector, produce a real-valued predictor.  This stands for
`XGBRegressor.fit` followed by `predict` on a single row. -/
def Trainer : Type := List PredRow → List ℤ → (PredRow → ℚ)

/-- One emitted forecast point (`prediction.py` lines 61-68). -/
structure ForecastPoint where
  date : ℕ
  total_sales : ℤ
  max_sales : ℤ
  min_sales : ℤ
deriving DecidableEq, Repr

/-- Quantity at positional index `i` of the running feature table. -/
def rowQty (rows : List FeatRow) (i : ℕ) : ℤ :=
  ((rows.get? i).map FeatRow.total_quantity).getD 0

/-- One iteration of the rolling loop of `generate_predictions`: build the
next row from the last row of `latest`, predict, append, emit a point.
`lag7cond` is the loop-invariant condition `len(dataset) >= 15` evaluated on
the ORIGINAL feature table (`prediction.py` line 50). -/
def predStep (model : PredRow → ℚ) (lag7cond : Bool) (pred_range : ℤ)
    (latest : List FeatRow) (last_row : FeatRow) : FeatRow × ForecastPoint :=
  let next_date := last_row.date + 1
  let lag7val : Option ℤ :=
    if lag7cond then some (rowQty latest (latest.length - 7)) else none
  let prow : PredRow :=
    { dayofweek := dayofweek next_date
      is_weekend := isWeekend next_date
      lag_1 := last_row.total_quantity
      lag_2 := last_row.lag_1
      lag_3 := last_row.lag_2
      lag_7 := lag7val }
  let y_pred : ℤ := round (model prow)
  let newRow : FeatRow :=
    { date := next_date
      dayofweek := prow.dayofweek
      is_weekend := prow.is_weekend
      lag_1 := prow.lag_1
      lag_2 := prow.lag_2
      lag_3 := prow.lag_3
      lag_7 := lag7val
      total_quantity := y_pred }
  let point : ForecastPoint :=
    { date := next_date
      total_sales := y_pred
      max_sales := y_pred + pred_range
      min_sales := if pred_range ≤ y_pred then y_pred - pred_range else 0 }
  (newRow, point)

/-- The rolling loop, `k` iterations left.  An empty `latest` would make
`latest.iloc[-1:].iloc[0]` raise in the source; here the loop just stops
(the claims only concern non-empty tables, where the branch is unreached). -/
def predLoop (model : PredRow → ℚ) (lag7cond : Bool) (pred_range : ℤ) :
    ℕ → List FeatRow → List ForecastPoint
  | 0, _ => []
  | k + 1, latest =>
    match latest.getLast? with
    | none => []
    | some last_row =>
      let res := predStep model lag7cond pred_range latest last_row
      res.2 :: predLoop model lag7cond pred_range k (latest ++ [res.1])

/-- `generate_predictions` (`prediction.py`): rolling walk-forward
prediction for `day` days (0 iterations when `day ≤ 0`). -/
def generate_predictions (model : PredRow → ℚ) (dataset : List FeatRow)
    (pred_range : ℤ) (day : ℤ) : List ForecastPoint :=
  predLoop model (decide (15 ≤ dataset.length)) pred_range day.toNat dataset

/-- The absolute errors of the holdout evaluation in `get_model_mae`
(`model.py` lines 60-62): a model is fit on `X[:-7], y[:-7]` only, its
predictions on `X[-7:]` are compared with `y[-7:]`.  Python slicing `[:-7]`
on a list shorter than 7 yields the empty list, which `take (n - 7)` with
truncated subtraction reproduces. -/
def holdoutErrs (fit : Trainer) (X : List PredRow) (y : List ℤ) : List ℚ :=
  let k := X.length - 7
  let predictor := fit (X.take k) (y.take k)
  List.zipWith (fun (a : ℤ) (p : ℚ) => |(a : ℚ) - p|) (y.drop k)
    ((X.drop k).map predictor)

/-- `get_model_mae` (`model.py`): fit on `X[:-7]`, predict `X[-7:]`, return
`int(round(mean_absolute_error(y[-7:], preds)))` — the mean of the holdout
absolute errors, rounded to an integer. -/
def get_model_mae (fit : Trainer) (X : List PredRow) (y : List ℤ) : ℤ :=
  round ((holdoutErrs fit X y).sum / ((holdoutErrs fit X y).length : ℚ))

/-- The aggregate returned by `forecast` (`forecast.py` lines 57-64). -/
structure ForecastResult where
  predictions : List ForecastPoint
  total_sales : ℤ
  max_restock_quantity : ℤ
  min_restock_quantity : ℤ
  restock_quantity : ℤ
  goods_mae : ℤ
deriving Repr

/-- `X_train` of `forecast.py` line 37: the feature table minus the `date`
and `total_quantity` columns. -/
def tableX (df : List FeatRow) : List PredRow := df.map FeatRow.features

/-- `y_train` of `forecast.py` line 38: the `total_quantity` column. -/
def tableY (df : List FeatRow) : List ℤ := df.map FeatRow.total_quantity

/-- `forecast` (`forecast.py`): build dataset, hold out to estimate `mae`,
refit on the full table, roll forward, aggregate. -/
def forecast (fit : Trainer) (dataset : List Obs) (day_forecast : ℤ) :
    ForecastResult :=
  let df := create_dataset dataset
  let X := tableX df
  let y := tableY df
  let goods_mae := get_model_mae fit X y
  let model := fit X y
  let future_preds := generate_predictions model df goods_mae day_forecast
  let total_sales_forecast := (future_preds.map ForecastPoint.total_sales).sum
  { predictions := future_preds
    total_sales := total_sales_forecast
    max_restock_quantity := total_sales_forecast + goods_mae
    min_restock_quantity := max 0 (total_sales_forecast - goods_mae)
    restock_quantity := total_sales_forecast
    goods_mae := goods_mae }

/-- Per-goods decision of the router `get_forecast`
(`routers/forecast.py` lines 85-115): first component is `is_forecasted`,
second is whether the pipeline `forecast` is invoked.  `cached` models
`existing_inference and existing_inference.future_preds` being truthy. -/
def routerDecision (salesLen : ℕ) (cached : Bool) : Bool × Bool :=
  if 7 < salesLen then (true, !cached) else (false, false)

/-! ## Concrete inputs for witnesses and counterexamples -/

/-- A trainer whose fitted model always predicts 0. -/
def zeroTrainer : Trainer := fun _ _ => fun _ => 0

/-- A fitted model always predicting 0. -/
def zeroModel : PredRow → ℚ := fun _ => 0

/-- A fitted model always predicting -1 (XGBoost regressors can output
negative values even when all targets are non-negative). -/
def negModel : PredRow → ℚ := fun _ => -1

/-- A sample feature row. -/
def sampleRow : FeatRow :=
  { date := 100, dayofweek := dayofweek 100, is_weekend := isWeekend 100,
    lag_1 := 1, lag_2 := 1, lag_3 := 1, lag_7 := none, total_quantity := 1 }

/-- A raw series of `n` consecutive days (day numbers `0..n-1`), constant
quantity 1. -/
def constSeries (n : ℕ) : List Obs :=
  (List.range n).map fun i => { date := i, total_quantity := 1 }

/-- A raw series with out-of-order dates and a gap pattern:
dates 10, 12, 11, 13 with distinct quantities. -/
def cex6 : List Obs :=
  [{ date := 10, total_quantity := 1 }, { date := 12, total_quantity := 2 },
   { date := 11, total_quantity := 3 }, { date := 13, total_quantity := 4 }]

/-- A raw series of 16 consecutive days with distinct quantities: the
failing input for C5. -/
def ds16 : List Obs :=
  (List.range 16).map fun i => { date := i, total_quantity := (i : ℤ) }

/-- A raw series of 38 days listed most-recent-first (descending day
numbers `37..0`), constant quantity 1 — the order in which
`get_sales_dataset_by_goods` queries its rows. -/
def descSeries38 : List Obs :=
  (List.range 38).map fun i => { date := 37 - i, total_quantity := 1 }

/-- The quantity observed at calendar date `d` in a raw series (first
observation whose date field is `d`), if any. -/
def obsAt (sales : List Obs) (d : ℕ) : Option ℤ :=
  (sales.find? fun o => o.date = d).map Obs.total_quantity

/-! ## Helper lemmas -/

lemma maxLag_eq (n : ℕ) : maxLag n = if useLag7 n then 7 else 3 := by
  cases h : useLag7 n <;> simp only [maxLag, lags, h] <;> rfl

lemma qtyAt_eq (sales : List Obs) (i : ℕ) (hi : i < sales.length) :
    qtyAt sales i = (sales.get ⟨i, hi⟩).total_quantity := by
  rw [qtyAt, List.get?_eq_get hi]; rfl

lemma dateAt_eq (sales : List Obs) (i : ℕ) (hi : i < sales.length) :
    dateAt sales i = (sales.get ⟨i, hi⟩).date := by
  rw [dateAt, List.get?_eq_get hi]; rfl

lemma range_filterMap_if {α : Type} (g : ℕ → α) (k : ℕ) : ∀ n : ℕ,
    ((List.range n).filterMap fun i => if k ≤ i then some (g i) else none) =
      (List.range (n - k)).map fun j => g (k + j) := by
  intro n
  induction n with
  | zero => simp
  | succ n ih =>
    rw [List.range_succ, List.filterMap_append, ih]
    by_cases h : k ≤ n
    · have h1 : n + 1 - k = (n - k) + 1 := by omega
      rw [h1, List.range_succ, List.map_append]
      simp only [List.filterMap, h, if_pos]
      have h2 : k + (n - k) = n := by omega
      simp [h2]
    · have h1 : n + 1 - k = 0 := by omega
      have h2 : n - k = 0 := by omega
      simp only [List.filterMap, h, if_neg, h1, h2]
      simp [h]

lemma usableRows_eq (sales : List Obs) :
    usableRows sales = (List.range (sales.length - maxLag sales.length)).map
      fun j => mkRow sales (maxLag sales.length + j) :=
  range_filterMap_if _ _ _

lemma usableRows_length (sales : List Obs) :
    (usableRows sales).length = sales.length - maxLag sales.length := by
  rw [usableRows_eq]; simp

lemma create_dataset_eq (sales : List Obs) :
    create_dataset sales =
      if 30 ≤ (usableRows sales).length then
        (usableRows sales).drop ((usableRows sales).length - 30)
      else usableRows sales := rfl

lemma create_dataset_length (sales : List Obs) :
    (create_dataset sales).length =
      if 30 ≤ (usableRows sales).length then 30 else (usableRows sales).length := by
  rw [create_dataset_eq]
  by_cases h : 30 ≤ (usableRows sales).length
  · simp [h]
    omega
  · simp [h]

lemma mem_of_mem_create_dataset {sales : List Obs} {r : FeatRow}
    (h : r ∈ create_dataset sales) : r ∈ usableRows sales := by
  rw [create_dataset_eq] at h
  split at h
  · exact (List.drop_sublist _ _).subset h
  · exact h

lemma mem_usableRows {sales : List Obs} {r : FeatRow} :
    r ∈ usableRows sales ↔
      ∃ i : ℕ, maxLag sales.length ≤ i ∧ i < sales.length ∧ r = mkRow sales i := by
  unfold usableRows
  rw [List.mem_filterMap]
  constructor
  · rintro ⟨i, hi, hif⟩
    rw [List.mem_range] at hi
    split at hif
    · exact ⟨i, by assumption, hi, (Option.some_injective _ hif).symm⟩
    · exact absurd hif (by simp)
  · rintro ⟨i, h1, h2, h3⟩
    exact ⟨i, List.mem_range.mpr h2, by rw [if_pos h1, h3]⟩

lemma round_nonneg_of_nonneg {q : ℚ} (h : 0 ≤ q) : 0 ≤ round q := by
  rw [round_eq]
  exact Int.floor_nonneg.mpr (by linarith)

lemma zipWith_abs_nonneg : ∀ (l₁ : List ℤ) (l₂ : List ℚ),
    ∀ x ∈ List.zipWith (fun (a : ℤ) (p : ℚ) => |(a : ℚ) - p|) l₁ l₂, 0 ≤ x := by
  intro l₁
  induction l₁ with
  | nil => intro l₂ x hx; simp at hx
  | cons a l ih =>
    intro l₂ x hx
    cases l₂ with
    | nil => simp at hx
    | cons b l' =>
      rcases List.mem_cons.mp hx with h | h
      · rw [h]; exact abs_nonneg _
      · exact ih l' x h

lemma get_model_mae_nonneg (fit : Trainer) (X : List PredRow) (y : List ℤ) :
    0 ≤ get_model_mae fit X y := by
  unfold get_model_mae holdoutErrs
  apply round_nonneg_of_nonneg
  apply div_nonneg
  · exact List.sum_nonneg (zipWith_abs_nonneg _ _)
  · exact Nat.cast_nonneg _

lemma predLoop_succ (m : PredRow → ℚ) (c : Bool) (r : ℤ) (k : ℕ)
    (latest : List FeatRow) (h : latest ≠ []) :
    predLoop m c r (k + 1) latest =
      (predStep m c r latest (latest.getLast h)).2 ::
        predLoop m c r k
          (latest ++ [(predStep m c r latest (latest.getLast h)).1]) := by
  rw [predLoop, List.getLast?_eq_getLast _ h]

lemma predLoop_length (m : PredRow → ℚ) (c : Bool) (r : ℤ) :
    ∀ (k : ℕ) (latest : List FeatRow), latest ≠ [] →
      (predLoop m c r k latest).length = k := by
  intro k
  induction k with
  | zero => intro latest h; rfl
  | succ k ih =>
    intro latest h
    rw [predLoop_succ m c r k latest h, List.length_cons, ih _ (by simp)]

lemma getLast_concat_eq {l : List FeatRow} {a : FeatRow} (h : l ++ [a] ≠ []) :
    (l ++ [a]).getLast h = a := by
  have h1 := List.getLast?_concat (a := a) l
  rw [List.getLast?_eq_getLast _ h] at h1
  exact Option.some_injective _ h1

lemma predLoop_dates (m : PredRow → ℚ) (c : Bool) (r : ℤ) :
    ∀ (k : ℕ) (latest : List FeatRow) (h : latest ≠ []),
      (predLoop m c r k latest).map ForecastPoint.date =
        (List.range k).map fun i => (latest.getLast h).date + 1 + i := by
  intro k
  induction k with
  | zero => intro latest h; rfl
  | succ k ih =>
    intro latest h
    rw [predLoop_succ m c r k latest h, List.map_cons]
    have hne : latest ++ [(predStep m c r latest (latest.getLast h)).1] ≠ [] := by
      simp
    rw [ih _ hne, getLast_concat_eq hne]
    have hd2 : (predStep m c r latest (latest.getLast h)).1.date
        = (latest.getLast h).date + 1 := rfl
    have hd1 : (predStep m c r latest (latest.getLast h)).2.date
        = (latest.getLast h).date + 1 := rfl
    rw [hd1, hd2, List.range_succ_eq_map, List.map_cons, List.map_map]
    refine congrArg₂ _ rfl ?_
    refine List.map_congr_left ?_
    intro a _
    simp only [Function.comp_apply]
    omega

lemma predLoop_mem_shape (m : PredRow → ℚ) (c : Bool) (r : ℤ) :
    ∀ (k : ℕ) (latest : List FeatRow), ∀ p ∈ predLoop m c r k latest,
      p.max_sales = p.total_sales + r ∧
      p.min_sales = if r ≤ p.total_sales then p.total_sales - r else 0 := by
  intro k
  induction k with
  | zero => intro latest p hp; simp [predLoop] at hp
  | succ k ih =>
    intro latest p hp
    by_cases h : latest = []
    · rw [h] at hp; simp [predLoop] at hp
    · rw [predLoop_succ m c r k latest h] at hp
      rcases List.mem_cons.mp hp with h1 | h1
      · subst h1; exact ⟨rfl, rfl⟩
      · exact ih _ p h1

lemma generate_predictions_nonpos (m : PredRow → ℚ) (ds : List FeatRow)
    (r : ℤ) (day : ℤ) (h : day ≤ 0) : generate_predictions m ds r day = [] := by
  rw [generate_predictions, Int.toNat_of_nonpos h]; rfl

lemma dateAt_lt_of_sorted {sales : List Obs}
    (hs : (sales.map Obs.date).Pairwise (· < ·)) {i j : ℕ} (hij : i < j)
    (hj : j < sales.length) : dateAt sales i < dateAt sales j := by
  have hi : i < sales.length := lt_trans hij hj
  rw [dateAt_eq sales i hi, dateAt_eq sales j hj]
  have hp : sales.Pairwise fun a b => a.date < b.date := List.pairwise_map.mp hs
  exact List.pairwise_iff_get.mp hp ⟨i, hi⟩ ⟨j, hj⟩ hij

lemma usableRows_pairwise_dates {sales : List Obs}
    (hs : (sales.map Obs.date).Pairwise (· < ·)) :
    (usableRows sales).Pairwise fun a b => a.date < b.date := by
  rw [usableRows_eq, List.pairwise_map]
  refine (List.pairwise_lt_range _).imp_of_mem ?_
  intro a b ha hb hab
  rw [List.mem_range] at ha hb
  show dateAt sales (maxLag sales.length + a) <
    dateAt sales (maxLag sales.length + b)
  exact dateAt_lt_of_sorted hs (by omega) (by omega)

lemma find?_date_of_consec :
    ∀ (sales : List Obs) (d0 : ℕ),
      (∀ i (hi : i < sales.length), (sales.get ⟨i, hi⟩).date = d0 + i) →
      ∀ m (hm : m < sales.length),
        (sales.find? fun o => o.date = d0 + m) = some (sales.get ⟨m, hm⟩) := by
  intro sales
  induction sales with
  | nil => intro d0 h m hm; simp at hm
  | cons a l ih =>
    intro d0 h m hm
    have ha : a.date = d0 := by simpa using h 0 (by simp)
    cases m with
    | zero =>
      have hpos : (fun o => decide (o.date = d0 + 0)) a = true := by simp [ha]
      have hfind : (List.find? (fun o => decide (o.date = d0 + 0)) (a :: l))
          = some a := List.find?_cons_of_pos l hpos
      rw [hfind]
      rfl
    | succ m =>
      rw [List.find?_cons_of_neg]
      · have hx : d0 + (m + 1) = (d0 + 1) + m := by omega
        rw [hx]
        have hcons : ∀ i (hi : i < l.length),
            (l.get ⟨i, hi⟩).date = (d0 + 1) + i := by
          intro i hi
          have h2 := h (i + 1) (by simpa using Nat.succ_lt_succ hi)
          have h3 : ((a :: l).get ⟨i + 1, by simpa using Nat.succ_lt_succ hi⟩)
              = l.get ⟨i, hi⟩ := rfl
          rw [h3] at h2
          omega
        rw [ih (d0 + 1) hcons m (by simpa using Nat.lt_of_succ_lt_succ hm)]
        rfl
      · simp only [ha, decide_eq_true_eq]
        omega

/-! ## Claims -/

/-- Claim C1 (aggregate identity): for every trainer, input series and horizon,
the result of `forecast` satisfies: `total_sales` equals the sum of
`total_sales` over the returned forecast points, `restock_quantity` equals
`total_sales`, `max_restock_quantity` equals `total_sales + goods_mae`, and
`min_restock_quantity` equals `max 0 (total_sales - goods_mae)`. -/
theorem C1_aggregate_identity (fit : Trainer) (dataset : List Obs)
    (day_forecast : ℤ) :
    (forecast fit dataset day_forecast).total_sales =
      ((forecast fit dataset day_forecast).predictions.map
        ForecastPoint.total_sales).sum ∧
    (forecast fit dataset day_forecast).restock_quantity =
      (forecast fit dataset day_forecast).total_sales ∧
    (forecast fit dataset day_forecast).max_restock_quantity =
      (forecast fit dataset day_forecast).total_sales +
        (forecast fit dataset day_forecast).goods_mae ∧
    (forecast fit dataset day_forecast).min_restock_quantity =
      max 0 ((forecast fit dataset day_forecast).total_sales -
        (forecast fit dataset day_forecast).goods_mae) :=
  ⟨rfl, rfl, rfl, rfl⟩

/-- Claim C2, corrected (bound consistency): for every forecast point emitted
by the rolling predictor with a non-negative mae band,
`min_sales = max 0 (total_sales - mae)` and `max_sales = total_sales + mae`,
and `total_sales ≤ max_sales`; but `min_sales ≤ total_sales` only holds when
the rounded model output is non-negative (a negative model output gives
`total_sales < 0 = min_sales`, see the counterexample). -/
theorem C2_bound_consistency (model : PredRow → ℚ) (dataset : List FeatRow)
    (pred_range : ℤ) (day : ℤ) (hmae : 0 ≤ pred_range) :
    ∀ p ∈ generate_predictions model dataset pred_range day,
      p.min_sales = max 0 (p.total_sales - pred_range) ∧
      p.max_sales = p.total_sales + pred_range ∧
      p.total_sales ≤ p.max_sales ∧
      (0 ≤ p.total_sales → p.min_sales ≤ p.total_sales) := by
  intro p hp
  obtain ⟨hmax, hmin⟩ := predLoop_mem_shape _ _ _ _ _ p hp
  refine ⟨?_, hmax, ?_, ?_⟩
  · rw [hmin]
    split <;> omega
  · omega
  · intro h0
    rw [hmin]
    split <;> omega

/-- Claim C2 fails as stated: with the model outputting -1 and mae band 0, the
single emitted point has `total_sales = -1` but `min_sales = 0`, so
`min_sales ≤ total_sales` is violated. -/
theorem C2_counterexample :
    ∃ p ∈ generate_predictions negModel [sampleRow] 0 1,
      ¬ p.min_sales ≤ p.total_sales := by
  have hr : round ((-1 : ℚ)) = -1 := by norm_num [round_eq]
  refine ⟨{ date := 101, total_sales := -1, max_sales := -1, min_sales := 0 },
    ?_, by decide⟩
  simp [generate_predictions, predLoop, predStep, negModel, sampleRow,
    rowQty, hr]

/-- Witness for C2: at the zero model with band 2, the emitted point
satisfies all corrected bound identities. -/
theorem C2_witness :
    (0 : ℤ) ≤ 2 ∧
    ∀ p ∈ generate_predictions zeroModel [sampleRow] 2 1,
      p.min_sales = max 0 (p.total_sales - 2) ∧
      p.max_sales = p.total_sales + 2 ∧
      p.total_sales ≤ p.max_sales ∧
      (0 ≤ p.total_sales → p.min_sales ≤ p.total_sales) :=
  ⟨by decide, C2_bound_consistency zeroModel [sampleRow] 2 1 (by decide)⟩

/-- Claim C3 (horizon length): for every model, non-empty feature table and
positive requested horizon, `generate_predictions` returns exactly `day`
points, and the i-th point's date is `last known date + 1 + i` — the dates
are exactly the consecutive calendar days starting the day after the last
date of the table. -/
theorem C3_horizon_dates (model : PredRow → ℚ) (dataset : List FeatRow)
    (pred_range : ℤ) (day : ℤ) (hne : dataset ≠ []) (hday : 0 < day) :
    ((generate_predictions model dataset pred_range day).length : ℤ) = day ∧
    (generate_predictions model dataset pred_range day).map ForecastPoint.date
      = (List.range day.toNat).map
          fun i => (dataset.getLast hne).date + 1 + i := by
  constructor
  · rw [generate_predictions, predLoop_length _ _ _ _ _ hne]
    exact Int.toNat_of_nonneg hday.le
  · exact predLoop_dates _ _ _ _ _ hne

/-- Witness for C3: one sample row, horizon 2: exactly two points, dated one
and two days after the sample row. -/
theorem C3_witness :
    ((generate_predictions zeroModel [sampleRow] 0 2).length : ℤ) = 2 ∧
    (generate_predictions zeroModel [sampleRow] 0 2).map ForecastPoint.date
      = (List.range (2 : ℤ).toNat).map
          fun i => ([sampleRow].getLast (by decide)).date + 1 + i :=
  C3_horizon_dates zeroModel [sampleRow] 0 2 (by decide) (by decide)

/-- Claim C10 (non-positive horizon): for every trainer and series, a
non-positive `day_forecast` yields a successful result with no predictions,
`total_sales = 0`, `restock_quantity = 0`, `min_restock_quantity = 0`, and
`max_restock_quantity = goods_mae`. -/
theorem C10_nonpositive_horizon (fit : Trainer) (sales : List Obs) (day : ℤ)
    (hday : day ≤ 0) :
    (forecast fit sales day).predictions = [] ∧
    (forecast fit sales day).total_sales = 0 ∧
    (forecast fit sales day).restock_quantity = 0 ∧
    (forecast fit sales day).min_restock_quantity = 0 ∧
    (forecast fit sales day).max_restock_quantity =
      (forecast fit sales day).goods_mae := by
  have hpred : (forecast fit sales day).predictions =
      generate_predictions
        (fit (tableX (create_dataset sales)) (tableY (create_dataset sales)))
        (create_dataset sales)
        (get_model_mae fit (tableX (create_dataset sales))
          (tableY (create_dataset sales))) day := rfl
  have hp0 : (forecast fit sales day).predictions = [] := by
    rw [hpred, generate_predictions_nonpos _ _ _ _ hday]
  have htot : (forecast fit sales day).total_sales =
      ((forecast fit sales day).predictions.map ForecastPoint.total_sales).sum
      := rfl
  have ht0 : (forecast fit sales day).total_sales = 0 := by
    rw [htot, hp0]; rfl
  have hmae : (forecast fit sales day).goods_mae =
      get_model_mae fit (tableX (create_dataset sales))
        (tableY (create_dataset sales)) := rfl
  have hmae0 : 0 ≤ (forecast fit sales day).goods_mae := by
    rw [hmae]; exact get_model_mae_nonneg _ _ _
  have hmin : (forecast fit sales day).min_restock_quantity =
      max 0 ((forecast fit sales day).total_sales -
        (forecast fit sales day).goods_mae) := rfl
  have hmax : (forecast fit sales day).max_restock_quantity =
      (forecast fit sales day).total_sales +
        (forecast fit sales day).goods_mae := rfl
  have hrq : (forecast fit sales day).restock_quantity =
      (forecast fit sales day).total_sales := rfl
  refine ⟨hp0, ht0, by rw [hrq, ht0], ?_, ?_⟩
  · rw [hmin, ht0]; omega
  · rw [hmax, ht0]; omega

/-- Witness for C10: the zero trainer on an 11-day series with horizon 0. -/
theorem C10_witness :
    (forecast zeroTrainer (constSeries 11) 0).predictions = [] ∧
    (forecast zeroTrainer (constSeries 11) 0).total_sales = 0 ∧
    (forecast zeroTrainer (constSeries 11) 0).restock_quantity = 0 ∧
    (forecast zeroTrainer (constSeries 11) 0).min_restock_quantity = 0 ∧
    (forecast zeroTrainer (constSeries 11) 0).max_restock_quantity =
      (forecast zeroTrainer (constSeries 11) 0).goods_mae :=
  C10_nonpositive_horizon zeroTrainer (constSeries 11) 0 (by decide)

/-- Claim C4 fails as stated: on a 38-day series delivered most-recent-first
(descending dates, as `get_sales_dataset_by_goods` orders its query), the
recency cap still drops the positionally-first usable row — which is dated
strictly later than every one of the 30 rows it keeps, so the kept rows are
not the 30 chronologically-latest ones. -/
theorem C4_counterexample :
    30 < (usableRows descSeries38).length ∧
    ∃ s ∈ (usableRows descSeries38).take
        ((usableRows descSeries38).length - 30),
      ∀ r ∈ create_dataset descSeries38, r.date < s.date := by decide

/-- Claim C4, corrected (lag availability and recency cap): for every input
series of length `n`, the lag set is `[1,2,3,7]` iff `n ≥ 15` else
`[1,2,3]`, and the usable-row count before the cap is `n - max(lag)` when
`n > max(lag)` and 0 otherwise; when more than 30 usable rows remain the
dataset keeps exactly the POSITIONALLY-last 30 of them — these are the 30
chronologically-latest rows (each dated strictly later than every dropped
row) only when the series is ascending by date, not in general (see the
counterexample). -/
theorem C4_dataset_shape (sales : List Obs) :
    lags sales.length = (if 15 ≤ sales.length then [1, 2, 3, 7] else [1, 2, 3]) ∧
    (usableRows sales).length =
      (if maxLag sales.length < sales.length
        then sales.length - maxLag sales.length else 0) ∧
    (30 < (usableRows sales).length →
      create_dataset sales =
        (usableRows sales).drop ((usableRows sales).length - 30) ∧
      (create_dataset sales).length = 30 ∧
      ((sales.map Obs.date).Pairwise (· < ·) →
        ∀ r ∈ create_dataset sales,
          ∀ s ∈ (usableRows sales).take ((usableRows sales).length - 30),
            s.date < r.date)) := by
  refine ⟨?_, ?_, ?_⟩
  · by_cases h : 15 ≤ sales.length
    · simp [lags, useLag7, h]
    · simp [lags, useLag7, h]
  · rw [usableRows_length]
    split
    · rfl
    · omega
  · intro h30
    have hc : create_dataset sales =
        (usableRows sales).drop ((usableRows sales).length - 30) := by
      rw [create_dataset_eq, if_pos (by omega)]
    refine ⟨hc, ?_, ?_⟩
    · rw [create_dataset_length, if_pos (by omega)]
    · intro hsorted r hr s hs
      have hp := usableRows_pairwise_dates hsorted
      have hsplit := List.take_append_drop
        ((usableRows sales).length - 30) (usableRows sales)
      rw [← hsplit] at hp
      rw [hc] at hr
      exact (List.pairwise_append.mp hp).2.2 s hs r hr

/-- Witness for C4: a 38-day series (31 usable rows, ascending dates in this
instance) keeps exactly 30 rows. -/
theorem C4_witness :
    30 < (usableRows (constSeries 38)).length ∧
    (create_dataset (constSeries 38)).length = 30 :=
  ⟨by decide, ((C4_dataset_shape (constSeries 38)).2.2 (by decide)).2.1⟩

/-- Claim C5 (code bug, lag_7 schema mismatch): on a raw series of 16
observations every row of the feature table carries the `lag_7` column, yet
the table has only 9 rows, so the rolling predictor's
`len(dataset) >= 15` test is false and the prediction row it constructs
(`predStep` on the table's own last row) carries no `lag_7` feature — the
model, trained with `lag_7`, is handed rows without it. -/
theorem C5_schema_mismatch :
    (∀ r ∈ create_dataset ds16, r.lag_7.isSome = true) ∧
    (create_dataset ds16).length = 9 ∧
    ¬ 15 ≤ (create_dataset ds16).length ∧
    (create_dataset ds16).getLast? = some (mkRow ds16 15) ∧
    (predStep zeroModel (decide (15 ≤ (create_dataset ds16).length)) 0
        (create_dataset ds16) (mkRow ds16 15)).1.lag_7 = none := by
  refine ⟨by decide, by decide, by decide, by decide, ?_⟩
  rfl

/-- Claim C6 fails as stated: on the out-of-order gapped series `cex6`
(dates 10, 12, 11, 13) the single usable feature row is dated 13 with
`lag_1 = 3` (the quantity of the positionally previous row, dated 11), while
the quantity observed at calendar date 12 is 2. -/
theorem C6_counterexample :
    ∃ r ∈ create_dataset cex6, obsAt cex6 (r.date - 1) ≠ some r.lag_1 := by
  decide

/-- Claim C6, corrected (lag correctness): `shift` is positional, so lag
features agree with calendar-date lookups only on chronologically sorted,
gap-free series.  For every series whose i-th observation is dated
`d0 + i`, every usable feature row at date `d` has `lag_1` equal to the
quantity observed at `d - 1`, `lag_2` at `d - 2`, `lag_3` at `d - 3`, and
`lag_7` (when present) at `d - 7`. -/
theorem C6_lag_calendar (sales : List Obs) (d0 : ℕ)
    (hconsec : ∀ i (hi : i < sales.length),
      (sales.get ⟨i, hi⟩).date = d0 + i) :
    ∀ r ∈ create_dataset sales,
      obsAt sales (r.date - 1) = some r.lag_1 ∧
      obsAt sales (r.date - 2) = some r.lag_2 ∧
      obsAt sales (r.date - 3) = some r.lag_3 ∧
      ∀ v : ℤ, r.lag_7 = some v → obsAt sales (r.date - 7) = some v := by
  intro r hr
  obtain ⟨i, hk, hn, hmk⟩ := mem_usableRows.mp (mem_of_mem_create_dataset hr)
  have hmax3 : 3 ≤ maxLag sales.length := by
    rw [maxLag_eq]; split
    · omega
    · omega
  have hdate : r.date = d0 + i := by
    rw [hmk]
    show dateAt sales i = d0 + i
    rw [dateAt_eq sales i hn]
    exact hconsec i hn
  have key : ∀ m : ℕ, m ≤ i →
      obsAt sales (r.date - m) = some (qtyAt sales (i - m)) := by
    intro m h2
    have hsub : r.date - m = d0 + (i - m) := by omega
    rw [hsub, obsAt,
      find?_date_of_consec sales d0 hconsec (i - m) (by omega)]
    rw [Option.map_some', qtyAt_eq sales (i - m) (by omega)]
  have hl1 : r.lag_1 = qtyAt sales (i - 1) := by rw [hmk]; rfl
  have hl2 : r.lag_2 = qtyAt sales (i - 2) := by rw [hmk]; rfl
  have hl3 : r.lag_3 = qtyAt sales (i - 3) := by rw [hmk]; rfl
  refine ⟨by rw [hl1]; exact key 1 (by omega),
    by rw [hl2]; exact key 2 (by omega),
    by rw [hl3]; exact key 3 (by omega), ?_⟩
  intro v hv
  rw [hmk] at hv
  by_cases h7 : useLag7 sales.length = true
  · have h7le : maxLag sales.length = 7 := by rw [maxLag_eq, if_pos h7]
    have hveq : v = qtyAt sales (i - 7) := by
      simp [mkRow, h7] at hv
      exact hv.symm
    rw [hveq]
    exact key 7 (by omega)
  · exfalso
    simp [mkRow, h7] at hv

/-- Witness for C6: in the 11-day consecutive series (dates 0..10), the
last usable row (dated 10) reads its `lag_1` from the quantity observed at
calendar date 9. -/
theorem C6_witness :
    obsAt (constSeries 11) ((mkRow (constSeries 11) 10).date - 1)
      = some (mkRow (constSeries 11) 10).lag_1 :=
  (C6_lag_calendar (constSeries 11) 0 (by decide)
    (mkRow (constSeries 11) 10) (by decide)).1

/-- Claim C7 (holdout evaluation and final refit): whenever the feature table
has at least 8 rows, `goods_mae` is the rounded mean of the 7 holdout
absolute errors — the model fit only on all rows but the last 7, scored
against the last 7 targets — it is non-negative, and the rolling predictions
are generated with the model refit on the entire feature table. -/
theorem C7_holdout_and_refit (fit : Trainer) (sales : List Obs) (day : ℤ)
    (h8 : 8 ≤ (create_dataset sales).length) :
    (forecast fit sales day).goods_mae =
      round ((holdoutErrs fit (tableX (create_dataset sales))
        (tableY (create_dataset sales))).sum / 7) ∧
    (holdoutErrs fit (tableX (create_dataset sales))
      (tableY (create_dataset sales))).length = 7 ∧
    0 ≤ (forecast fit sales day).goods_mae ∧
    (forecast fit sales day).predictions =
      generate_predictions
        (fit (tableX (create_dataset sales)) (tableY (create_dataset sales)))
        (create_dataset sales) ((forecast fit sales day).goods_mae) day := by
  have hX : (tableX (create_dataset sales)).length =
      (create_dataset sales).length := List.length_map _ _
  have hY : (tableY (create_dataset sales)).length =
      (create_dataset sales).length := List.length_map _ _
  have hlen7 : (holdoutErrs fit (tableX (create_dataset sales))
      (tableY (create_dataset sales))).length = 7 := by
    unfold holdoutErrs
    rw [List.length_zipWith, List.length_map, List.length_drop,
      List.length_drop, hX, hY]
    omega
  have hmae : (forecast fit sales day).goods_mae =
      get_model_mae fit (tableX (create_dataset sales))
        (tableY (create_dataset sales)) := rfl
  refine ⟨?_, hlen7, ?_, rfl⟩
  · rw [hmae, get_model_mae, hlen7]
    norm_num
  · rw [hmae]
    exact get_model_mae_nonneg _ _ _

/-- Witness for C7: the zero trainer on an 11-day series (8 feature rows),
horizon 7. -/
theorem C7_witness :
    8 ≤ (create_dataset (constSeries 11)).length ∧
    ((forecast zeroTrainer (constSeries 11) 7).goods_mae =
      round ((holdoutErrs zeroTrainer (tableX (create_dataset (constSeries 11)))
        (tableY (create_dataset (constSeries 11)))).sum / 7) ∧
    (holdoutErrs zeroTrainer (tableX (create_dataset (constSeries 11)))
      (tableY (create_dataset (constSeries 11)))).length = 7 ∧
    0 ≤ (forecast zeroTrainer (constSeries 11) 7).goods_mae ∧
    (forecast zeroTrainer (constSeries 11) 7).predictions =
      generate_predictions
        (zeroTrainer (tableX (create_dataset (constSeries 11)))
          (tableY (create_dataset (constSeries 11))))
        (create_dataset (constSeries 11))
        ((forecast zeroTrainer (constSeries 11) 7).goods_mae) 7) :=
  ⟨by decide, C7_holdout_and_refit zeroTrainer (constSeries 11) 7 (by decide)⟩

/-- Claim C8 fails as stated: a goods item with 8 (> 7) aggregated sales
entries but an existing same-day stored forecast does NOT invoke the
pipeline (the router reuses the stored result). -/
theorem C8_counterexample :
    7 < 8 ∧ (routerDecision 8 true).2 = false := by decide

/-- Claim C8, corrected (router policy): the pipeline is invoked only if the
item has strictly more than 7 aggregated sales entries; with at most 7 the
response has `is_forecasted = false` and the pipeline is never called; with
more than 7 the pipeline is invoked iff no same-day stored forecast
exists. -/
theorem C8_router_policy (salesLen : ℕ) (cached : Bool) :
    ((routerDecision salesLen cached).2 = true → 7 < salesLen) ∧
    (salesLen ≤ 7 → routerDecision salesLen cached = (false, false)) ∧
    (7 < salesLen → (routerDecision salesLen cached).1 = true ∧
      (routerDecision salesLen cached).2 = !cached) := by
  by_cases h : 7 < salesLen
  · refine ⟨fun _ => h, fun h2 => absurd h (by omega), fun _ => ?_⟩
    simp [routerDecision, h]
  · refine ⟨?_, ?_, fun h2 => absurd h2 h⟩
    · intro h2
      rw [routerDecision, if_neg h] at h2
      simp at h2
    · intro _
      rw [routerDecision, if_neg h]

/-- Witness for C8: with 8 entries and no stored forecast, the router sets
`is_forecasted = true` and invokes the pipeline. -/
theorem C8_witness :
    (routerDecision 8 false).1 = true ∧ (routerDecision 8 false).2 = !false :=
  (C8_router_policy 8 false).2.2 (by decide)

/-- Claim C9 fails as stated: a raw series of 8 observations passes the
router's `> 7` pre-filter, yet `create_dataset` yields only 5 usable rows
(lags {1,2,3} drop the first 3), so the 8-row requirement of the holdout
split is violated. -/
theorem C9_counterexample :
    7 < (constSeries 8).length ∧
    (create_dataset (constSeries 8)).length = 5 ∧
    ¬ 8 ≤ (create_dataset (constSeries 8)).length := by decide

/-- Claim C9, corrected (holdout well-definedness): the `> 7` raw-observation
pre-filter does not guarantee 8 usable feature rows; that guarantee only
holds from 11 raw observations upward. -/
theorem C9_usable_rows (sales : List Obs) (h : 11 ≤ sales.length) :
    8 ≤ (create_dataset sales).length := by
  rw [create_dataset_length, usableRows_length, maxLag_eq]
  by_cases h15 : useLag7 sales.length = true
  · have h15n : 15 ≤ sales.length := by
      rw [useLag7] at h15
      exact of_decide_eq_true h15
    rw [if_pos h15]
    split
    · omega
    · omega
  · rw [if_neg h15]
    split
    · omega
    · omega

/-- Witness for C9: an 11-day series yields exactly 8 usable rows. -/
theorem C9_witness :
    11 ≤ (constSeries 11).length ∧
    8 ≤ (create_dataset (constSeries 11)).length :=
  ⟨by decide, C9_usable_rows (constSeries 11) (by decide)⟩
